import Mathlib

/-!
Verification development for the GIM8115 motor driver
(src/8115-control/gim8115_driver.py).

Shallow embedding conventions:
* Python floats are embedded as rationals (`ℚ`); the floating-point
  constants `math.radians(5.0)` and `math.radians(60.0)` are embedded as
  their printed decimal values.
* The driver object's calibration-relevant attributes become the
  `DriverState` structure; methods become functions from `DriverState`
  (plus explicit inputs standing for bus traffic) to results and updated
  states.
* Fallible operations return `Except`/`Option`; bus receptions consumed
  by `find_position_limits` (safety events, position reads) are supplied
  as explicit input streams, with stream exhaustion standing for the
  per-phase timeout.
* Commands sent on the bus are recorded in an explicit trace
  (`List Cmd`); the 4-byte little-endian IEEE-754 payload encoding is
  not modelled (no claim depends on it), only the opcode, the domain
  value and the 24-bit duration bytes.
-/

namespace GIM8115

/-- Decidable equality for `Except`, needed to evaluate concrete runs. -/
instance exceptDecEq {ε α : Type} [DecidableEq ε] [DecidableEq α] :
    DecidableEq (Except ε α) := fun a b =>
  match a, b with
  | Except.error x, Except.error y =>
    if h : x = y then isTrue (by rw [h]) else isFalse (by intro hc; cases hc; exact h rfl)
  | Except.error _, Except.ok _ => isFalse (by intro hc; cases hc)
  | Except.ok _, Except.error _ => isFalse (by intro hc; cases hc)
  | Except.ok x, Except.ok y =>
    if h : x = y then isTrue (by rw [h]) else isFalse (by intro hc; cases hc; exact h rfl)

/-! Protocol constants from the top of gim8115_driver.py. -/

def CMD_START_MOTOR : ℕ := 0x91

def CMD_STOP_MOTOR : ℕ := 0x92

def CMD_TORQUE_CONTROL : ℕ := 0x93

def CMD_VELOCITY_CONTROL : ℕ := 0x94

def CMD_POSITION_CONTROL : ℕ := 0x95

def RES_SUCCESS : ℕ := 0x00

def SAFETY_STATUS_MIN_LIMIT : ℕ := 0x10

def SAFETY_STATUS_MAX_LIMIT : ℕ := 0x20

def SAFETY_STATUS_LIMIT1_FIND : ℕ := 0x11

def SAFETY_STATUS_LIMIT2_FIND : ℕ := 0x12

/-- `SAFETY_LIMIT_SHIFT_RAD = math.radians(5.0)`, the 5-degree inward
safety shift, embedded as its decimal value. -/
def SAFETY_LIMIT_SHIFT_RAD : ℚ := 0.08726646259971647

/-- `DEFAULT_LIMIT_RAD = math.radians(60.0)`, the default ±60-degree
position limit set in `__init__`. -/
def DEFAULT_LIMIT_RAD : ℚ := 1.0471975511965976

/-! Frame decoding (`parse_feedback`). -/

/-- `MotorStatus` dataclass (value type produced per feedback frame). -/
structure MotorStatus where
  command_echo : ℕ
  result_code : ℕ
  temperature : ℤ
  position_rad : ℚ
  speed_rads : ℚ
  torque_nm : ℚ
  torque_raw : ℚ
deriving DecidableEq, Repr

/-- Errors `parse_feedback` can raise: `GIM8115Error` for a frame that is
not exactly 8 bytes, `GIM8115ResultError code` for a non-success result
code when `check_result` is set. -/
inductive ParseErr where
  | formatError
  | resultError (code : ℕ)
deriving DecidableEq, Repr

/-- `struct.unpack('<b', ...)`: reinterpret a byte as a signed 8-bit
integer. -/
def int8 (b : ℕ) : ℤ := if b < 128 then (b : ℤ) else (b : ℤ) - 256

/-- `GIM8115Driver.parse_feedback`. The two constructor parameters
`torque_constant` and `gear_coeff` embed the driver attributes
`self.torque_constant` and `self.gear_ratio` (immutable after
construction); the method reads no other state, so it is a pure
function here. -/
def parse_feedback (torque_constant gear_coeff : ℚ) (data : List ℕ)
    (check_result : Bool) : Except ParseErr MotorStatus :=
  if data.length ≠ 8 then Except.error ParseErr.formatError
  else
    let command_echo := data.getD 0 0
    let result_code := data.getD 1 0
    if check_result = true ∧ result_code ≠ RES_SUCCESS then
      Except.error (ParseErr.resultError result_code)
    else
      let temperature := int8 (data.getD 2 0)
      let pos_uint16 := data.getD 3 0 + 256 * data.getD 4 0
      let position_rad := (pos_uint16 : ℚ) * 25.0 / 65535.0 - 12.5
      let speed_int := (data.getD 5 0 <<< 4) ||| ((data.getD 6 0 &&& 0xF0) >>> 4)
      let speed_rads := (speed_int : ℚ) * 130.0 / 4095.0 - 65.0
      let torque_int := ((data.getD 6 0 &&& 0x0F) <<< 8) ||| data.getD 7 0
      let torque_raw := (torque_int : ℚ) * 450.0 / 4095.0 - 225.0
      let torque_nm := (torque_int : ℚ) * (450.0 * torque_constant * gear_coeff) / 4095.0 -
        225.0 * torque_constant * gear_coeff
      Except.ok
        { command_echo := command_echo
          result_code := result_code
          temperature := temperature
          position_rad := position_rad
          speed_rads := speed_rads
          torque_nm := torque_nm
          torque_raw := torque_raw }

/-! Driver calibration state (offset, limits, listener flags). -/

/-- The calibration-relevant mutable attributes of `GIM8115Driver`
(set in `__init__` and mutated by the setters, `load_config` and
`find_position_limits`).  The CAN bus handle is abstracted to the flag
`bus_connected` (`self._bus is not None`); the safety callback to the
flag `has_safety_callback` (`self._safety_callback is not None`). -/
structure DriverState where
  position_offset : ℚ
  position_min_limit : ℚ
  position_max_limit : ℚ
  position_limits_enabled : Bool
  position_border_min_limit : Option ℚ
  position_border_max_limit : Option ℚ
  limit_find_speed_rads : ℚ
  bus_connected : Bool
  safety_listener_running : Bool
  auto_stop_on_limit : Bool
  has_safety_callback : Bool
deriving DecidableEq, Repr

/-- The attribute values assigned in `__init__` before `load_config`
runs (offset 0, ±60° limits, limits enabled, no border limits, search
speed 0.5 rad/s, no bus, no listener, auto-stop on, no callback). -/
def defaultState : DriverState where
  position_offset := 0
  position_min_limit := -DEFAULT_LIMIT_RAD
  position_max_limit := DEFAULT_LIMIT_RAD
  position_limits_enabled := true
  position_border_min_limit := none
  position_border_max_limit := none
  limit_find_speed_rads := 0.5
  bus_connected := false
  safety_listener_running := false
  auto_stop_on_limit := true
  has_safety_callback := false

/-- The key/value pairs a parsed configuration file may supply
(`load_config` treats every key as optional). -/
structure ConfigFile where
  position_offset : Option ℚ
  position_min_limit : Option ℚ
  position_max_limit : Option ℚ
  position_limits_enabled : Option Bool
  position_border_min_limit : Option ℚ
  position_border_max_limit : Option ℚ
  limit_find_speed_rads : Option ℚ
deriving DecidableEq, Repr

/-- `GIM8115Driver.load_config`.  `none` stands for a missing or
corrupt (JSON-undecodable) file: both paths only reset the offset to 0
and leave every other attribute as it was.  A parsed file supplies
`position_offset` with default 0 (`config.get('position_offset', 0.0)`)
and overwrites each remaining attribute only when its key is present
(`if 'key' in config:`).  No validation is performed. -/
def load_config (st : DriverState) : Option ConfigFile → DriverState
  | none => { st with position_offset := 0 }
  | some c =>
    { st with
      position_offset := c.position_offset.getD 0
      position_min_limit := c.position_min_limit.getD st.position_min_limit
      position_max_limit := c.position_max_limit.getD st.position_max_limit
      position_limits_enabled := c.position_limits_enabled.getD st.position_limits_enabled
      position_border_min_limit :=
        match c.position_border_min_limit with
        | some v => some v
        | none => st.position_border_min_limit
      position_border_max_limit :=
        match c.position_border_max_limit with
        | some v => some v
        | none => st.position_border_max_limit
      limit_find_speed_rads := c.limit_find_speed_rads.getD st.limit_find_speed_rads }

/-- `GIM8115Driver.set_position_limits`: raises
`GIM8115Error("Minimum limit must be less than maximum limit")` when
`min_limit_rad >= max_limit_rad`, before touching any attribute;
otherwise stores both limits.  (The subsequent `save_config` call only
writes the file and changes no attribute, so it is not modelled.) -/
def set_position_limits (st : DriverState) (min_limit_rad max_limit_rad : ℚ) :
    Except String Unit × DriverState :=
  if min_limit_rad ≥ max_limit_rad then
    (Except.error "Minimum limit must be less than maximum limit", st)
  else
    (Except.ok (),
     { st with
       position_min_limit := min_limit_rad
       position_max_limit := max_limit_rad })

/-! Position clamping and the offset model (`_clamp_position`,
`send_position`, and the relative-position conversion used by
`enforce_position_limits` and the border-limit computation). -/

/-- `GIM8115Driver._clamp_position`. -/
def clamp_position (st : DriverState) (angle_rad : ℚ) : ℚ :=
  if st.position_limits_enabled = false then angle_rad
  else if angle_rad < st.position_min_limit then st.position_min_limit
  else if angle_rad > st.position_max_limit then st.position_max_limit
  else angle_rad

/-- The absolute position actually commanded by `send_position`:
`actual_position = self._clamp_position(angle_rad) + self._position_offset`. -/
def toAbsolute (st : DriverState) (angle_rad : ℚ) : ℚ :=
  clamp_position st angle_rad + st.position_offset

/-- The relative position recovered from an absolute read, as computed
by `enforce_position_limits` (`current_abs - self._position_offset`) and
by the border-limit computation in `find_position_limits`. -/
def toRelative (st : DriverState) (absolute : ℚ) : ℚ :=
  absolute - st.position_offset

/-! Command frames (duration packing and the three motion encoders). -/

/-- `GIM8115Driver._pack_duration`: `struct.pack('<I', duration_ms & 0xFFFFFF)`
keeps bytes 0-2 of the packed word, i.e. the little-endian bytes of
`duration_ms mod 2^24` (Python's `&` on a negative int equals its
floor-modulus by the mask plus one, which is `Int.emod` here). -/
def pack_duration (duration_ms : ℤ) : ℕ × ℕ × ℕ :=
  let m := (duration_ms % 16777216).toNat
  (m % 256, m / 256 % 256, m / 65536 % 256)

/-- An outgoing motion-command frame: opcode byte, domain payload value
(whose 4-byte float encoding is not modelled), and duration bytes 5-7. -/
structure CommandFrame where
  opcode : ℕ
  payload : ℚ
  b5 : ℕ
  b6 : ℕ
  b7 : ℕ
deriving DecidableEq, Repr

/-- `GIM8115Driver.send_position`: clamps, applies the offset and packs
the duration. -/
def send_position_frame (st : DriverState) (angle_rad : ℚ) (duration_ms : ℤ) :
    CommandFrame :=
  { opcode := CMD_POSITION_CONTROL
    payload := toAbsolute st angle_rad
    b5 := (pack_duration duration_ms).1
    b6 := (pack_duration duration_ms).2.1
    b7 := (pack_duration duration_ms).2.2 }

/-- `GIM8115Driver.send_velocity`. -/
def send_velocity_frame (speed_rads : ℚ) (duration_ms : ℤ) : CommandFrame :=
  { opcode := CMD_VELOCITY_CONTROL
    payload := speed_rads
    b5 := (pack_duration duration_ms).1
    b6 := (pack_duration duration_ms).2.1
    b7 := (pack_duration duration_ms).2.2 }

/-- `GIM8115Driver.send_torque`. -/
def send_torque_frame (torque_nm : ℚ) (duration_ms : ℤ) : CommandFrame :=
  { opcode := CMD_TORQUE_CONTROL
    payload := torque_nm
    b5 := (pack_duration duration_ms).1
    b6 := (pack_duration duration_ms).2.1
    b7 := (pack_duration duration_ms).2.2 }

/-! Safety listener event handling (`_handle_safety_limit`). -/

/-- `GIM8115Driver._handle_safety_limit`, abstracted to the pair
(number of stop-motor commands issued, number of observer-callback
invocations).  Border statuses 0x10/0x20 issue a stop exactly when
`self._auto_stop_on_limit` holds (a failing stop is caught and does not
prevent the callback); other statuses only log.  The callback is then
invoked exactly when one is registered (its exceptions are caught). -/
def handle_safety_limit (auto_stop_on_limit has_callback : Bool) (status : ℕ) :
    ℕ × ℕ :=
  let stops :=
    if status = SAFETY_STATUS_MIN_LIMIT ∨ status = SAFETY_STATUS_MAX_LIMIT then
      if auto_stop_on_limit = true then 1 else 0
    else 0
  let callbacks := if has_callback = true then 1 else 0
  (stops, callbacks)

/-! Calibration engine (`find_position_limits`). -/

/-- The distinct `GIM8115Error` raise sites in `find_position_limits`
(all re-raised wrapped as "Error finding limits: ..." except the
initial connection check). -/
inductive FindErr where
  | notConnected
  | timeoutLimit1
  | posReadFailed1
  | timeoutLimit2
  | posReadFailed2
  | inconsistentLimits
  | saveFailed
deriving DecidableEq, Repr

/-- Driver commands sent on the bus during calibration, recorded as a
trace.  `position` records the relative target handed to
`send_position`. -/
inductive Cmd where
  | startMotor
  | stopMotor
  | velocity (speed_rads : ℚ) (duration_ms : ℤ)
  | position (angle_rad : ℚ) (duration_ms : ℤ)
deriving DecidableEq, Repr

/-- Environment inputs consumed by one `find_position_limits` run:
`events` are the successive non-`none` results of
`check_safety_message` polls (already filtered to device 1 and the four
status codes), with `none` for an empty poll and list exhaustion
standing for the phase timeout; `posReads` are the successive
`get_current_position` results; `saveOk` is whether the final
`save_config` succeeds. -/
structure FindInput where
  events : List (Option (ℕ × ℕ))
  posReads : List (Option ℚ)
  saveOk : Bool
deriving DecidableEq, Repr

/-- One seek phase's polling loop: scan the event stream for the target
status, ignoring empty polls and every other status (border statuses
0x10/0x20 included, per the explicit `elif` that only logs them); yield
the remaining stream on a hit, `none` on exhaustion (timeout). -/
def seekEvents (target : ℕ) : List (Option (ℕ × ℕ)) → Option (List (Option (ℕ × ℕ)))
  | [] => none
  | e :: rest =>
    match e with
    | some (_, status) => if status = target then some rest else seekEvents target rest
    | none => seekEvents target rest

/-- The "read position, retry once with a longer timeout on a null
read" sequence after each detected limit. -/
def readPosWithRetry : List (Option ℚ) → Option ℚ × List (Option ℚ)
  | [] => (none, [])
  | some p :: rest => (some p, rest)
  | none :: rest =>
    match rest with
    | [] => (none, [])
    | r :: rest2 => (r, rest2)

/-- `start_safety_listener(auto_stop=True)` as invoked by the restore
paths of `find_position_limits`: run only when the listener was running
before; sets the running flag, forces auto-stop on and clears the
callback (the call passes no callback). -/
def listenerRestart (listener_was_running : Bool) (st : DriverState) : DriverState :=
  if listener_was_running = true then
    { st with
      safety_listener_running := true
      auto_stop_on_limit := true
      has_safety_callback := false }
  else st

/-- The `except` handler of `find_position_limits`: best-effort
`stop_motor` (its own failure is swallowed), restore the limits-enabled
flag, restart the safety listener if it was running, re-raise. -/
def findCleanup (limits_were_enabled listener_was_running : Bool) (e : FindErr)
    (stE : DriverState) (tr : List Cmd) :
    Except FindErr (ℚ × ℚ) × DriverState × List Cmd :=
  (Except.error e,
   listenerRestart listener_was_running
     { stE with position_limits_enabled := limits_were_enabled },
   tr ++ [Cmd.stopMotor])

/-- `GIM8115Driver.find_position_limits`.  Control flow follows the
source: connection check; save and clear the limits-enabled flag and
stop the listener; phase 1 (start motor, negative velocity, poll for
0x11, stop, read position with one retry); phase 2 (start motor,
positive velocity, poll for 0x12, stop, read position with one retry);
validate `min < max`; apply the ±5° shift, recentre the offset, store
symmetric limits and the border limits; restore the limits-enabled
flag; move to centre (local failures caught, so only the trace
records it); save the configuration; restart the listener.  Every
failure goes through `findCleanup`. -/
def find_position_limits (st : DriverState) (speedArg : Option ℚ) (inp : FindInput) :
    Except FindErr (ℚ × ℚ) × DriverState × List Cmd :=
  let speed_rads := speedArg.getD st.limit_find_speed_rads
  if st.bus_connected = false then
    (Except.error FindErr.notConnected, st, [])
  else
    let limits_were_enabled := st.position_limits_enabled
    let listener_was_running := st.safety_listener_running
    let st0 : DriverState :=
      { st with position_limits_enabled := false, safety_listener_running := false }
    let tr1 : List Cmd := [Cmd.startMotor, Cmd.velocity (-(abs speed_rads)) 0]
    match seekEvents SAFETY_STATUS_LIMIT1_FIND inp.events with
    | none => findCleanup limits_were_enabled listener_was_running FindErr.timeoutLimit1 st0 tr1
    | some evs1 =>
      let tr2 := tr1 ++ [Cmd.stopMotor]
      match readPosWithRetry inp.posReads with
      | (none, _) =>
        findCleanup limits_were_enabled listener_was_running FindErr.posReadFailed1 st0 tr2
      | (some min_limit_abs, reads1) =>
        let tr3 := tr2 ++ [Cmd.startMotor, Cmd.velocity (abs speed_rads) 0]
        match seekEvents SAFETY_STATUS_LIMIT2_FIND evs1 with
        | none =>
          findCleanup limits_were_enabled listener_was_running FindErr.timeoutLimit2 st0 tr3
        | some _ =>
          let tr4 := tr3 ++ [Cmd.stopMotor]
          match readPosWithRetry reads1 with
          | (none, _) =>
            findCleanup limits_were_enabled listener_was_running FindErr.posReadFailed2 st0 tr4
          | (some max_limit_abs, _) =>
            if min_limit_abs ≥ max_limit_abs then
              findCleanup limits_were_enabled listener_was_running
                FindErr.inconsistentLimits st0 tr4
            else
              let min_limit_abs_shifted := min_limit_abs + SAFETY_LIMIT_SHIFT_RAD
              let max_limit_abs_shifted := max_limit_abs - SAFETY_LIMIT_SHIFT_RAD
              let center_abs := (min_limit_abs_shifted + max_limit_abs_shifted) / 2
              let half_range := abs (max_limit_abs_shifted - min_limit_abs_shifted) / 2
              let st1 : DriverState :=
                { st0 with
                  position_offset := center_abs
                  position_min_limit := -half_range
                  position_max_limit := half_range
                  position_border_min_limit := some (min_limit_abs - center_abs)
                  position_border_max_limit := some (max_limit_abs - center_abs)
                  position_limits_enabled := limits_were_enabled }
              let tr5 := tr4 ++ [Cmd.startMotor, Cmd.position 0 100, Cmd.stopMotor]
              if inp.saveOk = false then
                findCleanup limits_were_enabled listener_was_running FindErr.saveFailed st1 tr5
              else
                (Except.ok (st1.position_min_limit, st1.position_max_limit),
                 listenerRestart listener_was_running st1, tr5)

/-- `defaultState` with a connected bus, for concrete runs. -/
def connState : DriverState := { defaultState with bus_connected := true }

/-- Concrete calibration input realising approach-min at 0 rad and
approach-max at 0.01 rad (a span smaller than twice the safety shift). -/
def narrowSpanInput : FindInput where
  events := [some (1, 0x11), some (1, 0x12)]
  posReads := [some 0, some 0.01]
  saveOk := true

/-- The scripted event sequence
[hard-stop-min, approach-min, hard-stop-max, approach-max]. -/
def scriptedEvents : List (Option (ℕ × ℕ)) :=
  [some (1, 0x10), some (1, 0x11), some (1, 0x20), some (1, 0x12)]

/-- Calibration input feeding `scriptedEvents` with approach positions
−1 rad and +1 rad. -/
def scriptedInput : FindInput where
  events := scriptedEvents
  posReads := [some (-1), some 1]
  saveOk := true

/-- A configuration file storing inverted limits (min 1 rad, max 0 rad). -/
def invertedLimitsConfig : ConfigFile where
  position_offset := none
  position_min_limit := some 1
  position_max_limit := some 0
  position_limits_enabled := none
  position_border_min_limit := none
  position_border_max_limit := none
  limit_find_speed_rads := none

/-- A configuration file storing well-ordered limits (min −2 rad, max 2 rad). -/
def orderedLimitsConfig : ConfigFile where
  position_offset := none
  position_min_limit := some (-2)
  position_max_limit := some 2
  position_limits_enabled := none
  position_border_min_limit := none
  position_border_max_limit := none
  limit_find_speed_rads := none

/-- Calibration input with an empty event stream: the first seek phase
times out. -/
def timeoutInput : FindInput where
  events := []
  posReads := []
  saveOk := true

/-! Helper lemmas. -/

theorem listenerRestart_offset (b : Bool) (st : DriverState) :
    (listenerRestart b st).position_offset = st.position_offset := by
  cases b <;> simp [listenerRestart]

theorem listenerRestart_min (b : Bool) (st : DriverState) :
    (listenerRestart b st).position_min_limit = st.position_min_limit := by
  cases b <;> simp [listenerRestart]

theorem listenerRestart_max (b : Bool) (st : DriverState) :
    (listenerRestart b st).position_max_limit = st.position_max_limit := by
  cases b <;> simp [listenerRestart]

theorem listenerRestart_bmin (b : Bool) (st : DriverState) :
    (listenerRestart b st).position_border_min_limit = st.position_border_min_limit := by
  cases b <;> simp [listenerRestart]

theorem listenerRestart_bmax (b : Bool) (st : DriverState) :
    (listenerRestart b st).position_border_max_limit = st.position_border_max_limit := by
  cases b <;> simp [listenerRestart]

/-- The `except` handler always reports the error, restores the
limits-enabled flag, restores the listener flag (the states it is
handed all have the listener stopped) and has sent a stop command. -/
theorem findCleanup_spec (lw lr : Bool) (e : FindErr) (stE : DriverState) (tr : List Cmd) :
    (findCleanup lw lr e stE tr).1 = Except.error e ∧
    (findCleanup lw lr e stE tr).2.1.position_limits_enabled = lw ∧
    (findCleanup lw lr e stE tr).2.1.safety_listener_running =
      (lr || stE.safety_listener_running) ∧
    Cmd.stopMotor ∈ (findCleanup lw lr e stE tr).2.2 := by
  cases lr <;> simp [findCleanup, listenerRestart]

/-- Reduction of `find_position_limits` on a successful run: the event
stream yields the phase-1 target then the phase-2 target, both position
reads succeed with `a < b`, and the configuration save succeeds. -/
theorem find_success_eq (st : DriverState) (speedArg : Option ℚ) (inp : FindInput)
    (a b : ℚ) (evs1 evs2 : List (Option (ℕ × ℕ))) (reads1 reads2 : List (Option ℚ))
    (hbus : st.bus_connected = true)
    (h1 : seekEvents SAFETY_STATUS_LIMIT1_FIND inp.events = some evs1)
    (hr1 : readPosWithRetry inp.posReads = (some a, reads1))
    (h2 : seekEvents SAFETY_STATUS_LIMIT2_FIND evs1 = some evs2)
    (hr2 : readPosWithRetry reads1 = (some b, reads2))
    (hab : a < b) (hsave : inp.saveOk = true) :
    (find_position_limits st speedArg inp).1 =
      Except.ok
        (-(abs ((b - SAFETY_LIMIT_SHIFT_RAD) - (a + SAFETY_LIMIT_SHIFT_RAD)) / 2),
         abs ((b - SAFETY_LIMIT_SHIFT_RAD) - (a + SAFETY_LIMIT_SHIFT_RAD)) / 2) ∧
    (find_position_limits st speedArg inp).2.1 =
      listenerRestart st.safety_listener_running
        { st with
          position_offset :=
            ((a + SAFETY_LIMIT_SHIFT_RAD) + (b - SAFETY_LIMIT_SHIFT_RAD)) / 2
          position_min_limit :=
            -(abs ((b - SAFETY_LIMIT_SHIFT_RAD) - (a + SAFETY_LIMIT_SHIFT_RAD)) / 2)
          position_max_limit :=
            abs ((b - SAFETY_LIMIT_SHIFT_RAD) - (a + SAFETY_LIMIT_SHIFT_RAD)) / 2
          position_border_min_limit :=
            some (a - ((a + SAFETY_LIMIT_SHIFT_RAD) + (b - SAFETY_LIMIT_SHIFT_RAD)) / 2)
          position_border_max_limit :=
            some (b - ((a + SAFETY_LIMIT_SHIFT_RAD) + (b - SAFETY_LIMIT_SHIFT_RAD)) / 2)
          safety_listener_running := false } := by
  have hnotge : ¬ a ≥ b := not_le.mpr hab
  simp only [find_position_limits, hbus, h1, hr1, h2, hr2, hsave]
  simp [hnotge, abs_sub_comm]

/-! Claim theorems. -/

/-- C1 (amended): for every successful calibration run with approach-min
absolute position `a` and approach-max absolute position `b` where
`a < b` and additionally the raw span is at least twice the safety
shift (`2s ≤ b − a`), the engine sets the new offset to
`((a+s)+(b-s))/2`, the new min limit to `−((b−s)−(a+s))/2`, the new max
limit to `+((b−s)−(a+s))/2`, and records border limits `a − offset` and
`b − offset`.  (Without the span proviso the source computes the half
range through an absolute value, so the min/max formulas flip sign —
see the counterexample.) -/
theorem c1_find_limits_formulas (st : DriverState) (speedArg : Option ℚ)
    (inp : FindInput) (a b : ℚ) (evs1 evs2 : List (Option (ℕ × ℕ)))
    (reads1 reads2 : List (Option ℚ))
    (hbus : st.bus_connected = true)
    (h1 : seekEvents SAFETY_STATUS_LIMIT1_FIND inp.events = some evs1)
    (hr1 : readPosWithRetry inp.posReads = (some a, reads1))
    (h2 : seekEvents SAFETY_STATUS_LIMIT2_FIND evs1 = some evs2)
    (hr2 : readPosWithRetry reads1 = (some b, reads2))
    (hab : a < b) (hsave : inp.saveOk = true)
    (hspan : 2 * SAFETY_LIMIT_SHIFT_RAD ≤ b - a) :
    (find_position_limits st speedArg inp).2.1.position_offset =
      ((a + SAFETY_LIMIT_SHIFT_RAD) + (b - SAFETY_LIMIT_SHIFT_RAD)) / 2 ∧
    (find_position_limits st speedArg inp).2.1.position_min_limit =
      -(((b - SAFETY_LIMIT_SHIFT_RAD) - (a + SAFETY_LIMIT_SHIFT_RAD)) / 2) ∧
    (find_position_limits st speedArg inp).2.1.position_max_limit =
      ((b - SAFETY_LIMIT_SHIFT_RAD) - (a + SAFETY_LIMIT_SHIFT_RAD)) / 2 ∧
    (find_position_limits st speedArg inp).2.1.position_border_min_limit =
      some (a - (find_position_limits st speedArg inp).2.1.position_offset) ∧
    (find_position_limits st speedArg inp).2.1.position_border_max_limit =
      some (b - (find_position_limits st speedArg inp).2.1.position_offset) := by
  have hx : (0 : ℚ) ≤ (b - SAFETY_LIMIT_SHIFT_RAD) - (a + SAFETY_LIMIT_SHIFT_RAD) := by
    linarith
  obtain ⟨-, hst⟩ :=
    find_success_eq st speedArg inp a b evs1 evs2 reads1 reads2 hbus h1 hr1 h2 hr2 hab hsave
  rw [hst]
  simp only [listenerRestart_offset, listenerRestart_min, listenerRestart_max,
    listenerRestart_bmin, listenerRestart_bmax]
  simp [abs_of_nonneg hx]

/-- C1 witness: the end-to-end scenario with approach-min at −1 rad and
approach-max at +1 rad (fed through the scripted hard-stop/approach
event sequence) yields offset exactly 0, min within 0.001 of
−0.9127 rad and max within 0.001 of +0.9127 rad. -/
theorem c1_find_limits_formulas_witness :
    (find_position_limits connState none scriptedInput).2.1.position_offset = 0 ∧
    abs ((find_position_limits connState none scriptedInput).2.1.position_min_limit -
      (-0.9127)) ≤ 0.001 ∧
    abs ((find_position_limits connState none scriptedInput).2.1.position_max_limit -
      0.9127) ≤ 0.001 := by
  have h := c1_find_limits_formulas connState none scriptedInput (-1) 1
    [some (1, 0x20), some (1, 0x12)] [] [some 1] []
    rfl rfl rfl rfl rfl (by norm_num) rfl (by norm_num [SAFETY_LIMIT_SHIFT_RAD])
  refine ⟨?_, ?_, ?_⟩
  · rw [h.1]; norm_num
  · rw [h.2.1, abs_le]
    constructor <;> norm_num [SAFETY_LIMIT_SHIFT_RAD]
  · rw [h.2.2.1, abs_le]
    constructor <;> norm_num [SAFETY_LIMIT_SHIFT_RAD]

/-- C1 counterexample: a successful run with approach positions a = 0
and b = 0.01 rad (a < b, but a span smaller than 2×shift).  The claim's
formula `−((b−s)−(a+s))/2` is positive there, while the code stores the
negated absolute half range, which is negative. -/
theorem c1_find_limits_cex :
    (find_position_limits connState none narrowSpanInput).1 =
      Except.ok (0.005 - SAFETY_LIMIT_SHIFT_RAD, SAFETY_LIMIT_SHIFT_RAD - 0.005) ∧
    (find_position_limits connState none narrowSpanInput).2.1.position_min_limit ≠
      -(((0.01 - SAFETY_LIMIT_SHIFT_RAD) - (0 + SAFETY_LIMIT_SHIFT_RAD)) / 2) := by
  have h := find_success_eq connState none narrowSpanInput 0 0.01
    [some (1, 0x12)] [] [some 0.01] [] rfl rfl rfl rfl rfl (by norm_num) rfl
  constructor
  · rw [h.1, abs_of_nonpos (by norm_num [SAFETY_LIMIT_SHIFT_RAD])]
    simp only [Except.ok.injEq, Prod.mk.injEq]
    constructor <;> norm_num [SAFETY_LIMIT_SHIFT_RAD]
  · rw [h.2]
    simp only [connState, defaultState, listenerRestart]
    norm_num [SAFETY_LIMIT_SHIFT_RAD, abs_of_nonpos]

/-- C2 (amended): decoding the 8-byte feedback frame
[0x95,0x00,0x32,0x00,0x00,0x00,0x00,0x00] yields position −12.5 rad,
speed −65 rad/s and raw torque −225 A — every all-zero packed field
maps to its negative extreme, and the speed field's negative extreme is
−65 rad/s, not 0. -/
theorem c2_known_vector_decode :
    parse_feedback 1 1 [0x95, 0x00, 0x32, 0x00, 0x00, 0x00, 0x00, 0x00] true =
      Except.ok
        { command_echo := 0x95
          result_code := 0
          temperature := 50
          position_rad := -12.5
          speed_rads := -65
          torque_nm := -225
          torque_raw := -225 } := by
  simp [parse_feedback, int8, RES_SUCCESS]
  norm_num

/-- C2 counterexample: the claimed speed value 0 rad/s is wrong — the
frame decodes to speed −65 rad/s, which is nonzero. -/
theorem c2_known_vector_cex :
    (parse_feedback 1 1 [0x95, 0x00, 0x32, 0x00, 0x00, 0x00, 0x00, 0x00] true).map
      MotorStatus.speed_rads = Except.ok (-65) ∧ ((-65 : ℚ) ≠ 0) := by
  constructor
  · simp [parse_feedback, int8, RES_SUCCESS, Except.map]
    norm_num
  · norm_num

/-- C3 (amended): min limit < max limit holds after construction with
defaults, after every successful `set_position_limits`, and after a
successful `find_position_limits` run whose recorded span differs from
exactly twice the safety shift; `load_config` copies file values
without validation, so it establishes the invariant only when the file
supplies both limits in order, and it preserves the invariant when the
file is missing or corrupt (only the offset is reset then). -/
theorem c3_limits_invariant :
    (defaultState.position_min_limit < defaultState.position_max_limit) ∧
    (∀ (st : DriverState) (mn mx : ℚ), (set_position_limits st mn mx).1 = Except.ok () →
      (set_position_limits st mn mx).2.position_min_limit <
        (set_position_limits st mn mx).2.position_max_limit) ∧
    (∀ (st : DriverState) (speedArg : Option ℚ) (inp : FindInput) (a b : ℚ)
      (evs1 evs2 : List (Option (ℕ × ℕ))) (reads1 reads2 : List (Option ℚ)),
      st.bus_connected = true →
      seekEvents SAFETY_STATUS_LIMIT1_FIND inp.events = some evs1 →
      readPosWithRetry inp.posReads = (some a, reads1) →
      seekEvents SAFETY_STATUS_LIMIT2_FIND evs1 = some evs2 →
      readPosWithRetry reads1 = (some b, reads2) →
      a < b → inp.saveOk = true → b - a ≠ 2 * SAFETY_LIMIT_SHIFT_RAD →
      (find_position_limits st speedArg inp).2.1.position_min_limit <
        (find_position_limits st speedArg inp).2.1.position_max_limit) ∧
    (∀ (st : DriverState) (c : ConfigFile) (mns mxs : ℚ),
      c.position_min_limit = some mns → c.position_max_limit = some mxs → mns < mxs →
      (load_config st (some c)).position_min_limit <
        (load_config st (some c)).position_max_limit) ∧
    (∀ st : DriverState, st.position_min_limit < st.position_max_limit →
      (load_config st none).position_min_limit <
        (load_config st none).position_max_limit) := by
  refine ⟨?_, ?_, ?_, ?_, ?_⟩
  · norm_num [defaultState, DEFAULT_LIMIT_RAD]
  · intro st mn mx hok
    by_cases h : mn ≥ mx
    · simp [set_position_limits, h] at hok
    · simp [set_position_limits, h, not_le.mp h]
  · intro st speedArg inp a b evs1 evs2 reads1 reads2 hbus h1 hr1 h2 hr2 hab hsave hne
    obtain ⟨-, hst⟩ :=
      find_success_eq st speedArg inp a b evs1 evs2 reads1 reads2 hbus h1 hr1 h2 hr2 hab hsave
    have hz : (b - SAFETY_LIMIT_SHIFT_RAD) - (a + SAFETY_LIMIT_SHIFT_RAD) ≠ 0 := by
      intro hzero
      apply hne
      linarith
    have hpos : 0 < abs ((b - SAFETY_LIMIT_SHIFT_RAD) - (a + SAFETY_LIMIT_SHIFT_RAD)) :=
      abs_pos.mpr hz
    rw [hst]
    simp only [listenerRestart_min, listenerRestart_max]
    show -(abs ((b - SAFETY_LIMIT_SHIFT_RAD) - (a + SAFETY_LIMIT_SHIFT_RAD)) / 2) <
      abs ((b - SAFETY_LIMIT_SHIFT_RAD) - (a + SAFETY_LIMIT_SHIFT_RAD)) / 2
    linarith
  · intro st c mns mxs hmin hmax hlt
    simp [load_config, hmin, hmax, hlt]
  · intro st h
    simpa [load_config] using h

/-- C3 witness: concrete instances of each hypothesised conjunct — a
successful limit set (−1, 1), the scripted calibration run, a
configuration file with ordered limits, and a missing file. -/
theorem c3_limits_invariant_witness :
    ((set_position_limits defaultState (-1) 1).1 = Except.ok () ∧
      (set_position_limits defaultState (-1) 1).2.position_min_limit <
        (set_position_limits defaultState (-1) 1).2.position_max_limit) ∧
    ((find_position_limits connState none scriptedInput).2.1.position_min_limit <
      (find_position_limits connState none scriptedInput).2.1.position_max_limit) ∧
    ((load_config defaultState (some orderedLimitsConfig)).position_min_limit <
      (load_config defaultState (some orderedLimitsConfig)).position_max_limit) ∧
    ((load_config defaultState none).position_min_limit <
      (load_config defaultState none).position_max_limit) := by
  have hok : (set_position_limits defaultState (-1) 1).1 = Except.ok () := by
    norm_num [set_position_limits]
  refine ⟨⟨hok, c3_limits_invariant.2.1 defaultState (-1) 1 hok⟩, ?_, ?_, ?_⟩
  · exact c3_limits_invariant.2.2.1 connState none scriptedInput (-1) 1
      [some (1, 0x20), some (1, 0x12)] [] [some 1] []
      rfl rfl rfl rfl rfl (by norm_num) rfl (by norm_num [SAFETY_LIMIT_SHIFT_RAD])
  · exact c3_limits_invariant.2.2.2.1 defaultState orderedLimitsConfig (-2) 2
      rfl rfl (by norm_num)
  · exact c3_limits_invariant.2.2.2.2 defaultState
      (by norm_num [defaultState, DEFAULT_LIMIT_RAD])

/-- C3 counterexample: `load_config` reads a configuration file whose
stored min limit (1 rad) exceeds its max limit (0 rad) and installs
both verbatim, so the invariant min < max fails right after
`load_config`. -/
theorem c3_limits_invariant_cex :
    ¬ ((load_config defaultState (some invertedLimitsConfig)).position_min_limit <
      (load_config defaultState (some invertedLimitsConfig)).position_max_limit) := by
  norm_num [load_config, invertedLimitsConfig]

/-- C4 (amended): `toRelative(toAbsolute(x))` always equals `clamp(x)`,
hence it equals `x` exactly when clamping does not move `x`: for every
`x` when limits are disabled, and for `x` within `[min, max]` when they
are enabled.  For `x` outside the enabled limits the round trip returns
the clamped value, not `x`. -/
theorem c4_offset_roundtrip :
    (∀ (st : DriverState) (x : ℚ),
      toRelative st (toAbsolute st x) = clamp_position st x) ∧
    (∀ (st : DriverState) (x : ℚ),
      (st.position_limits_enabled = false ∨
        (st.position_min_limit ≤ x ∧ x ≤ st.position_max_limit)) →
      toRelative st (toAbsolute st x) = x) := by
  have hbase : ∀ (st : DriverState) (x : ℚ),
      toRelative st (toAbsolute st x) = clamp_position st x := by
    intro st x
    simp [toRelative, toAbsolute]
  refine ⟨hbase, ?_⟩
  intro st x h
  rw [hbase]
  rcases h with h | ⟨hmin, hmax⟩
  · simp [clamp_position, h]
  · simp [clamp_position, not_lt.mpr hmin, not_lt.mpr hmax]

/-- C4 witness: with the default state (limits ±60° enabled, offset 0)
and target 0.5 rad, the round trip is the identity. -/
theorem c4_offset_roundtrip_witness :
    (defaultState.position_min_limit ≤ 0.5 ∧
      (0.5 : ℚ) ≤ defaultState.position_max_limit) ∧
    toRelative defaultState (toAbsolute defaultState 0.5) = 0.5 := by
  have hin : defaultState.position_min_limit ≤ 0.5 ∧
      (0.5 : ℚ) ≤ defaultState.position_max_limit := by
    constructor <;> norm_num [defaultState, DEFAULT_LIMIT_RAD]
  exact ⟨hin, c4_offset_roundtrip.2 defaultState 0.5 (Or.inr hin)⟩

/-- C4 counterexample: with the default state (limits ±60° ≈ ±1.047 rad
enabled), the target 2 rad is clamped, so the round trip returns the
max limit instead of 2. -/
theorem c4_offset_roundtrip_cex :
    toRelative defaultState (toAbsolute defaultState 2) ≠ 2 := by
  norm_num [toRelative, toAbsolute, clamp_position, defaultState, DEFAULT_LIMIT_RAD]

/-- C5: the seek loop ignores hard-stop (border) events 0x10 and 0x20 —
prepending either to the event stream never changes the outcome of
either seek phase (so such events never advance a phase, never end it
and never produce an error); each phase advances exactly on the
approach event matching its direction, so the scripted sequence
[hard-stop-min, approach-min, hard-stop-max, approach-max] advances
phase 1 precisely at the approach-min event and phase 2 precisely at
the approach-max event, and the full calibration run on that script
succeeds. -/
theorem c5_border_events_ignored :
    (∀ (d : ℕ) (evs : List (Option (ℕ × ℕ))),
      seekEvents SAFETY_STATUS_LIMIT1_FIND (some (d, SAFETY_STATUS_MIN_LIMIT) :: evs) =
        seekEvents SAFETY_STATUS_LIMIT1_FIND evs) ∧
    (∀ (d : ℕ) (evs : List (Option (ℕ × ℕ))),
      seekEvents SAFETY_STATUS_LIMIT1_FIND (some (d, SAFETY_STATUS_MAX_LIMIT) :: evs) =
        seekEvents SAFETY_STATUS_LIMIT1_FIND evs) ∧
    (∀ (d : ℕ) (evs : List (Option (ℕ × ℕ))),
      seekEvents SAFETY_STATUS_LIMIT2_FIND (some (d, SAFETY_STATUS_MIN_LIMIT) :: evs) =
        seekEvents SAFETY_STATUS_LIMIT2_FIND evs) ∧
    (∀ (d : ℕ) (evs : List (Option (ℕ × ℕ))),
      seekEvents SAFETY_STATUS_LIMIT2_FIND (some (d, SAFETY_STATUS_MAX_LIMIT) :: evs) =
        seekEvents SAFETY_STATUS_LIMIT2_FIND evs) ∧
    (seekEvents SAFETY_STATUS_LIMIT1_FIND scriptedEvents =
      some [some (1, 0x20), some (1, 0x12)]) ∧
    (seekEvents SAFETY_STATUS_LIMIT2_FIND [some (1, 0x20), some (1, 0x12)] =
      some []) ∧
    (find_position_limits connState none scriptedInput).1 =
      Except.ok (-(1 - SAFETY_LIMIT_SHIFT_RAD), 1 - SAFETY_LIMIT_SHIFT_RAD) := by
  refine ⟨?_, ?_, ?_, ?_, by decide, by decide, ?_⟩
  · intro d evs
    simp [seekEvents, SAFETY_STATUS_MIN_LIMIT, SAFETY_STATUS_LIMIT1_FIND]
  · intro d evs
    simp [seekEvents, SAFETY_STATUS_MAX_LIMIT, SAFETY_STATUS_LIMIT1_FIND]
  · intro d evs
    simp [seekEvents, SAFETY_STATUS_MIN_LIMIT, SAFETY_STATUS_LIMIT2_FIND]
  · intro d evs
    simp [seekEvents, SAFETY_STATUS_MAX_LIMIT, SAFETY_STATUS_LIMIT2_FIND]
  · have h := find_success_eq connState none scriptedInput (-1) 1
      [some (1, 0x20), some (1, 0x12)] [] [some 1] []
      rfl rfl rfl rfl rfl (by norm_num) rfl
    rw [h.1, abs_of_nonneg (by norm_num [SAFETY_LIMIT_SHIFT_RAD])]
    simp only [Except.ok.injEq, Prod.mk.injEq]
    constructor <;> norm_num [SAFETY_LIMIT_SHIFT_RAD]

/-- C6 (amended): on every exit path of `find_position_limits`, success
or failure, the limits-enabled flag is restored to its pre-calibration
value and the safety-listener flag to its prior state; whenever the bus
was connected (i.e. on every failure path past the initial connection
check) a stop-motor command is attempted before the error propagates.
On the not-connected path the function raises before touching any state
and before sending anything, so no stop is attempted there — see the
counterexample. -/
theorem c6_cleanup_restores (st : DriverState) (speedArg : Option ℚ) (inp : FindInput) :
    (find_position_limits st speedArg inp).2.1.position_limits_enabled =
      st.position_limits_enabled ∧
    (find_position_limits st speedArg inp).2.1.safety_listener_running =
      st.safety_listener_running ∧
    (st.bus_connected = true → ∀ e : FindErr,
      (find_position_limits st speedArg inp).1 = Except.error e →
      Cmd.stopMotor ∈ (find_position_limits st speedArg inp).2.2) := by
  obtain ⟨o, mn, mx, en, bmn, bmx, spd, bus, run, auto, cb⟩ := st
  cases bus
  · simp [find_position_limits]
  · simp only [find_position_limits]
    rcases h1 : seekEvents SAFETY_STATUS_LIMIT1_FIND inp.events with _ | evs1
    · simp only [h1]
      cases run <;> simp [findCleanup, listenerRestart]
    · rcases hr1 : readPosWithRetry inp.posReads with ⟨r1, reads1⟩
      rcases r1 with _ | a
      · simp only [h1, hr1]
        cases run <;> simp [findCleanup, listenerRestart]
      · rcases h2 : seekEvents SAFETY_STATUS_LIMIT2_FIND evs1 with _ | evs2
        · simp only [h1, hr1, h2]
          cases run <;> simp [findCleanup, listenerRestart]
        · rcases hr2 : readPosWithRetry reads1 with ⟨r2, reads2⟩
          rcases r2 with _ | b
          · simp only [h1, hr1, h2, hr2]
            cases run <;> simp [findCleanup, listenerRestart]
          · simp only [h1, hr1, h2, hr2]
            by_cases hge : a ≥ b
            · simp only [if_pos hge]
              cases run <;> simp [findCleanup, listenerRestart]
            · simp only [if_neg hge]
              cases inp.saveOk <;>
                cases run <;> simp [findCleanup, listenerRestart]

/-- C6 witness: a connected run whose event stream is empty fails with
the phase-1 timeout, yet its command trace contains a stop-motor
command. -/
theorem c6_cleanup_restores_witness :
    connState.bus_connected = true ∧
    (find_position_limits connState none timeoutInput).1 =
      Except.error FindErr.timeoutLimit1 ∧
    Cmd.stopMotor ∈ (find_position_limits connState none timeoutInput).2.2 := by
  refine ⟨rfl, rfl, ?_⟩
  exact (c6_cleanup_restores connState none timeoutInput).2.2 rfl
    FindErr.timeoutLimit1 rfl

/-- C6 counterexample: calling `find_position_limits` while not
connected is a failure exit path on which no stop-motor command is
attempted (the command trace is empty), contradicting the claim that a
stop is attempted on every failure path. -/
theorem c6_cleanup_restores_cex :
    (find_position_limits defaultState none timeoutInput).1 =
      Except.error FindErr.notConnected ∧
    Cmd.stopMotor ∉ (find_position_limits defaultState none timeoutInput).2.2 := by
  constructor
  · rfl
  · simp [find_position_limits, defaultState]

/-- C7: for every safety event handled by the listener (with a
registered callback): a hard-stop event (0x10 or 0x20) issues exactly
one stop command when auto-stop is enabled and zero when disabled, and
invokes the callback exactly once in both cases; an approach event
(0x11 or 0x12) never issues a stop and invokes the callback exactly
once. -/
theorem c7_safety_listener_actions (auto_stop : Bool) :
    handle_safety_limit auto_stop true SAFETY_STATUS_MIN_LIMIT =
      ((if auto_stop = true then 1 else 0), 1) ∧
    handle_safety_limit auto_stop true SAFETY_STATUS_MAX_LIMIT =
      ((if auto_stop = true then 1 else 0), 1) ∧
    handle_safety_limit auto_stop true SAFETY_STATUS_LIMIT1_FIND = (0, 1) ∧
    handle_safety_limit auto_stop true SAFETY_STATUS_LIMIT2_FIND = (0, 1) := by
  cases auto_stop <;> decide

/-- C8: `set_position_limits` with `min >= max` fails with the
validation error and leaves the whole state (in particular the stored
limits) unchanged; with `min < max` it succeeds and stores both
values. -/
theorem c8_set_limits_checked (st : DriverState) (mn mx : ℚ) :
    (mn ≥ mx →
      (set_position_limits st mn mx).1 =
        Except.error "Minimum limit must be less than maximum limit" ∧
      (set_position_limits st mn mx).2 = st) ∧
    (mn < mx →
      (set_position_limits st mn mx).1 = Except.ok () ∧
      (set_position_limits st mn mx).2.position_min_limit = mn ∧
      (set_position_limits st mn mx).2.position_max_limit = mx) := by
  constructor
  · intro h
    simp [set_position_limits, h]
  · intro h
    simp [set_position_limits, not_le.mpr h]

/-- C8 witness: the pair (1, 0) is rejected leaving the default state
untouched, and the pair (−1, 1) is stored. -/
theorem c8_set_limits_checked_witness :
    ((1 : ℚ) ≥ 0 ∧
      (set_position_limits defaultState 1 0).1 =
        Except.error "Minimum limit must be less than maximum limit" ∧
      (set_position_limits defaultState 1 0).2 = defaultState) ∧
    ((-1 : ℚ) < 1 ∧
      (set_position_limits defaultState (-1) 1).1 = Except.ok () ∧
      (set_position_limits defaultState (-1) 1).2.position_min_limit = -1 ∧
      (set_position_limits defaultState (-1) 1).2.position_max_limit = 1) := by
  constructor
  · exact ⟨by norm_num, (c8_set_limits_checked defaultState 1 0).1 (by norm_num)⟩
  · exact ⟨by norm_num, (c8_set_limits_checked defaultState (-1) 1).2 (by norm_num)⟩

/-- C9: `parse_feedback` fails with the format error exactly when the
input is not 8 bytes; on an 8-byte frame it raises a result error if
and only if `check_result` is set and byte 1 is nonzero; and with
`check_result` false it returns a decoded `MotorStatus` for every
8-byte frame, fault frames included.  (Decoding is embedded as a pure
function: the source method reads only the constructor-set conversion
constants and never writes driver state.) -/
theorem c9_parse_feedback_errors (torque_constant gear_coeff : ℚ) :
    (∀ (data : List ℕ) (check : Bool),
      parse_feedback torque_constant gear_coeff data check =
          Except.error ParseErr.formatError ↔ data.length ≠ 8) ∧
    (∀ b0 b1 b2 b3 b4 b5 b6 b7 : ℕ, ∀ check : Bool,
      (∃ c, parse_feedback torque_constant gear_coeff
          [b0, b1, b2, b3, b4, b5, b6, b7] check = Except.error (ParseErr.resultError c)) ↔
        (check = true ∧ b1 ≠ RES_SUCCESS)) ∧
    (∀ b0 b1 b2 b3 b4 b5 b6 b7 : ℕ,
      ∃ ms, parse_feedback torque_constant gear_coeff
        [b0, b1, b2, b3, b4, b5, b6, b7] false = Except.ok ms) := by
  refine ⟨?_, ?_, ?_⟩
  · intro data check
    by_cases h : data.length = 8
    · simp only [parse_feedback, h]
      norm_num
      split <;> simp
    · simp [parse_feedback, h]
  · intro b0 b1 b2 b3 b4 b5 b6 b7 check
    cases check
    · simp [parse_feedback, List.getD]
    · by_cases hb : b1 = RES_SUCCESS
      · simp [parse_feedback, List.getD, hb]
      · simp [parse_feedback, List.getD, hb]
  · intro b0 b1 b2 b3 b4 b5 b6 b7
    exact ⟨_, rfl⟩

/-- C10: the three motion-command encoders write `duration_ms mod 2^24`
little-endian into bytes 5-7 (the bytes are in range and reassemble to
the reduced value), and a duration of 2^24 or more wraps around
silently instead of being rejected. -/
theorem c10_duration_wraps (d : ℤ) (v t x : ℚ) (st : DriverState) :
    (((pack_duration d).1 : ℤ) + 256 * ((pack_duration d).2.1 : ℤ) +
        65536 * ((pack_duration d).2.2 : ℤ) = d % 16777216) ∧
    (pack_duration d).1 < 256 ∧ (pack_duration d).2.1 < 256 ∧
      (pack_duration d).2.2 < 256 ∧
    pack_duration (d + 16777216) = pack_duration d ∧
    ((send_velocity_frame v d).b5, (send_velocity_frame v d).b6,
        (send_velocity_frame v d).b7) = pack_duration d ∧
    ((send_torque_frame t d).b5, (send_torque_frame t d).b6,
        (send_torque_frame t d).b7) = pack_duration d ∧
    ((send_position_frame st x d).b5, (send_position_frame st x d).b6,
        (send_position_frame st x d).b7) = pack_duration d := by
  refine ⟨?_, ?_, ?_, ?_, ?_, rfl, rfl, rfl⟩
  · simp only [pack_duration]
    omega
  · simp only [pack_duration]
    omega
  · simp only [pack_duration]
    omega
  · simp only [pack_duration]
    omega
  · have h : (d + 16777216) % 16777216 = d % 16777216 := by omega
    simp only [pack_duration, h]

end GIM8115
